import Mathlib

/-!
Verification of the on-deploy project-board automation (src/index.ts).

The TypeScript source is shallowly embedded below.  JavaScript numbers are
modeled as exact rationals plus NaN (`JSNum`); every value the program
manipulates in the verified claims is either an integer-valued number or NaN,
where this model is exact.  Network I/O is modeled by explicit response
oracles (`NetEnv`, `HttpGet`), and each operation returns, besides its
result, the list of requests it issued, so that claims of the form
"fails before issuing any network request" are statable.
-/

namespace OnDeploy

/-- A JavaScript number: an exact rational, or NaN.  (`Infinity` does not
arise in any modeled code path.)  Comparisons with NaN are false, and
arithmetic with NaN yields NaN, as in ECMAScript. -/
inductive JSNum where
  | num (q : ℚ)
  | nan
deriving DecidableEq, Repr

/-- `Number.isInteger`: true for a finite number with denominator 1, false
for NaN. -/
def JSNum.isInteger : JSNum → Bool
  | .num q => q.den = 1
  | .nan => false

/-- JavaScript `<` on numbers: any comparison involving NaN is false. -/
def jsLt : JSNum → JSNum → Bool
  | .num a, .num b => a < b
  | _, _ => false

/-- JavaScript `<=` on numbers: any comparison involving NaN is false. -/
def jsLe : JSNum → JSNum → Bool
  | .num a, .num b => a ≤ b
  | _, _ => false

/-- JavaScript `>` on numbers: any comparison involving NaN is false. -/
def jsGt (a b : JSNum) : Bool := jsLt b a

/-- JavaScript subtraction: NaN propagates.  Rational subtraction is spelled
out on the numerator/denominator representation (so that the kernel can
evaluate it); `jsSub_num` below proves it agrees with `Sub.sub` on `ℚ`. -/
def jsSub : JSNum → JSNum → JSNum
  | .num a, .num b => .num (mkRat (a.num * b.den - b.num * a.den) (a.den * b.den))
  | _, _ => .nan

/-- The number is an integer and at least 1 (a valid positive id). -/
def posIntJS (v : JSNum) : Bool := v.isInteger && jsLe (.num 1) v

/-- The number is an integer and at least 0 (a valid non-negative limit). -/
def nonnegIntJS (v : JSNum) : Bool := v.isInteger && jsLe (.num 0) v

/-- A card fetched from a project column (src/index.ts, type `Card`).  The
id is an arbitrary JSON number. -/
structure Card where
  id : JSNum
  archived : Bool
deriving DecidableEq, Repr

/-- A project column (src/index.ts, type `Column`). -/
structure Column where
  id : Int
  name : String
deriving DecidableEq, Repr

/-- A repository project. -/
structure Project where
  id : Int
  name : String
deriving DecidableEq, Repr

/-- The errors thrown or rejected by src/index.ts, tagged with the message
kind used at the throw site. -/
inductive JSError where
  | typeError (msg : String)
  | rangeError (msg : String)
  | error (msg : String)
deriving DecidableEq, Repr

/-- A network request issued by one of the modeled operations. -/
inductive Request where
  | cardPage (columnId pageNumber : JSNum)
  | move (cardId columnId : JSNum)
  | archive (cardId : JSNum)
deriving DecidableEq, Repr

/-- Whether a request mutates board state (move or archive, as opposed to a
paginated read). -/
def Request.isMutation : Request → Bool
  | .cardPage _ _ => false
  | .move _ _ => true
  | .archive _ => true

/-- Response oracle for the board API.  For the per-card mutations the
response is `some status`, or `none` when the underlying client throws a
network error.  For card-page reads the response carries a status and the
page data, or `none` when the client throws. -/
structure NetEnv where
  pageResp : JSNum → JSNum → Option (Nat × List Card)
  moveResp : JSNum → JSNum → Option Nat
  archiveResp : JSNum → Option Nat

/-- `isSuccessStatus` from src/index.ts line 26: 2xx or 3xx. -/
def isSuccessStatus (status : Nat) : Bool := 200 ≤ status && status < 400

/-- `archiveCard` (src/index.ts lines 35-46): validates `cardId`, then issues
one PATCH request.  The result is the response (`none` when the HTTP client
throws), paired with the requests issued. -/
def archiveCard (cardId : JSNum) (net : NetEnv) :
    Except JSError (Option Nat) × List Request :=
  if !cardId.isInteger then
    (.error (.typeError "Param cardId is not an integer"), [])
  else if jsLt cardId (.num 1) then
    (.error (.rangeError "Param cardId cannot be negative"), [])
  else
    (.ok (net.archiveResp cardId), [.archive cardId])

/-- `moveCard` (src/index.ts lines 300-322): validates `cardId` and
`columnId` (in source order: the two `<= 0` checks come before the two
integrality checks), then issues one POST request. -/
def moveCard (cardId columnId : JSNum) (net : NetEnv) :
    Except JSError (Option Nat) × List Request :=
  if jsLe cardId (.num 0) then
    (.error (.rangeError "Param cardId cannot be less than 1"), [])
  else if jsLe columnId (.num 0) then
    (.error (.rangeError "Param columnId cannot be less than 1"), [])
  else if !cardId.isInteger then
    (.error (.rangeError "Param cardId must be an integer"), [])
  else if !columnId.isInteger then
    (.error (.rangeError "Param columnId must be an integer"), [])
  else
    (.ok (net.moveResp cardId columnId), [.move cardId columnId])

/-- `getCardPage` (src/index.ts lines 119-145): validates both parameters,
issues one GET request, and fails on a non-success status. -/
def getCardPage (columnId pageNumber : JSNum) (net : NetEnv) :
    Except JSError (List Card) × List Request :=
  if !columnId.isInteger then
    (.error (.typeError "Param columnId is not an integer"), [])
  else if jsLt columnId (.num 1) then
    (.error (.rangeError "Param columnId cannot be negative"), [])
  else if !pageNumber.isInteger then
    (.error (.typeError "Param pageNumber is not an integer"), [])
  else if jsLt pageNumber (.num 1) then
    (.error (.rangeError "Param pageNumber cannot be less than 1"), [])
  else
    match net.pageResp columnId pageNumber with
    | none => (.error (.error "card page fetch threw"), [.cardPage columnId pageNumber])
    | some (status, data) =>
      if isSuccessStatus status then (.ok data, [.cardPage columnId pageNumber])
      else (.error (.error "card page fetch returned a non-success status"),
            [.cardPage columnId pageNumber])

/-- The four per-card terminal states of the batch mutators
(src/index.ts lines 80-94 and 364-378): a 2xx response increments the
success counter, a 304 is logged as already-in-state, any other status
throws (and is then caught), and a thrown network error is caught. -/
inductive Outcome where
  | success
  | alreadyDone
  | failStatus
  | failError
deriving DecidableEq, Repr

/-- Classifies a per-card response the way the `then`/`catch` handlers of
`moveCards`/`archiveCards` do. -/
def statusOutcome : Option Nat → Outcome
  | none => .failError
  | some status =>
    if 200 ≤ status && status < 300 then .success
    else if status = 304 then .alreadyDone
    else .failStatus

/-- One attempted move of one card inside `moveCards`: the call
`moveCard(card.id, columnId)` is an async function, so a validation throw
becomes a rejected promise handled by the same `catch` as a network error. -/
def moveAttempt (columnId : JSNum) (net : NetEnv) (card : Card) :
    Outcome × List Request :=
  match moveCard card.id columnId net with
  | (.error _, reqs) => (.failError, reqs)
  | (.ok resp, reqs) => (statusOutcome resp, reqs)

/-- One attempted archival of one card inside `archiveCards`. -/
def archiveAttempt (net : NetEnv) (card : Card) : Outcome × List Request :=
  match archiveCard card.id net with
  | (.error _, reqs) => (.failError, reqs)
  | (.ok resp, reqs) => (statusOutcome resp, reqs)

/-- The shared counters of the batch mutators: `attempts` is the
`finally`-handler count, `successes` the 2xx count; `already` and `failures`
count the executions of the 304 branch and of the throwing/caught
branches. -/
structure Counters where
  attempts : Nat
  successes : Nat
  already : Nat
  failures : Nat
deriving DecidableEq, Repr

/-- One completion handler running: the `finally` increment plus the branch
taken for the outcome of this card. -/
def countersStep (c : Counters) (o : Outcome) : Counters :=
  { attempts := c.attempts + 1
    successes := c.successes + if o = .success then 1 else 0
    already := c.already + if o = .alreadyDone then 1 else 0
    failures := c.failures + if o = .failStatus || o = .failError then 1 else 0 }

/-- The counters after a sequence of completion handlers has run, in the
order the responses arrived. -/
def runCounters (arrival : List Outcome) : Counters :=
  arrival.foldl countersStep ⟨0, 0, 0, 0⟩

/-- How a batch-mutation promise ends: resolved with a success count,
rejected by parameter validation, or never settled because the first
`setInterval` tick read `batch[0]` of an empty batch (`undefined`) and threw
a `TypeError` dereferencing `.id`, crashing the callback before
`clearInterval` and before any completion handler could resolve. -/
inductive BatchResult where
  | resolved (count : Nat)
  | rejected (e : JSError)
  | crashed
deriving DecidableEq, Repr

/-- One batch mutation run: its result, the cards whose interval tick
reached the per-card request call (in dispatch order), and the requests
issued. -/
structure BatchRun where
  result : BatchResult
  dispatched : List Card
  requests : List Request
deriving DecidableEq, Repr

/-- The `setInterval` dispatch loop shared by `moveCards` and
`archiveCards` (src/index.ts lines 77-106 and 361-390), viewed through the
suffix of cards not yet dispatched (`requestSentCount` positions consumed).
Each tick reads the card at the current index: on an empty batch that read
yields `undefined` and the tick crashes (`none`); otherwise the card is
dispatched and, when it was the last one (`++requestSentCount >= length`),
the interval is cleared. -/
def intervalDispatch : List Card → Option (List Card)
  | [] => none
  | card :: rest =>
    if rest.isEmpty then some [card]
    else
      match intervalDispatch rest with
      | none => none
      | some cards => some (card :: cards)

/-- Runs a batch: dispatches every card, applies the per-card attempt, and
resolves with the success counter once the attempt count reaches the batch
length.  A crashed dispatch loop never resolves. -/
def runBatch (batch : List Card) (attempt : Card → Outcome × List Request) :
    BatchRun :=
  match intervalDispatch batch with
  | none => { result := .crashed, dispatched := [], requests := [] }
  | some cards =>
    { result := .resolved (runCounters (cards.map (fun c => (attempt c).1))).successes
      dispatched := cards
      requests := (cards.map (fun c => (attempt c).2)).flatten }

/-- Truncation toward zero, as in ECMAScript `ToIntegerOrInfinity` for a
finite argument. -/
def jsTrunc (q : ℚ) : Int := if 0 ≤ q then ⌊q⌋ else ⌈q⌉

/-- `Array.prototype.slice(start)` with a numeric argument: NaN becomes 0,
a negative start counts from the end, clamped at 0. -/
def jsSlice (l : List Card) : JSNum → List Card
  | .nan => l
  | .num q =>
    let i := jsTrunc q
    if i < 0 then l.drop ((l.length + i).toNat) else l.drop i.toNat

/-- `moveCards` (src/index.ts lines 330-392): validates `columnId`, resolves
immediately with 0 on an empty card list, otherwise dispatches one
`moveCard` per card on the interval. -/
def moveCards (cards : List Card) (columnId : JSNum) (net : NetEnv) : BatchRun :=
  if jsLe columnId (.num 0) then
    { result := .rejected (.rangeError "Param columnId cannot be less than 1")
      dispatched := [], requests := [] }
  else if !columnId.isInteger then
    { result := .rejected (.rangeError "Param columnId must be an integer")
      dispatched := [], requests := [] }
  else if cards.isEmpty then
    { result := .resolved 0, dispatched := [], requests := [] }
  else
    runBatch cards (moveAttempt columnId net)

/-- `archiveCards` (src/index.ts lines 54-108): computes
`cards.slice(limit)`, validates `limit`, and dispatches one `archiveCard`
per sliced card on the interval.  Unlike `moveCards` there is no empty-list
guard before the interval is started. -/
def archiveCards (cards : List Card) (limit : JSNum) (net : NetEnv) : BatchRun :=
  let cardsToBeArchived := jsSlice cards limit
  if !limit.isInteger then
    { result := .rejected (.typeError "Param limit is not an integer")
      dispatched := [], requests := [] }
  else if jsLt limit (.num 0) then
    { result := .rejected (.rangeError "Param limit cannot be negative")
      dispatched := [], requests := [] }
  else
    runBatch cardsToBeArchived (archiveAttempt net)

/-- `MAX_CARDS_PER_PAGE` (src/index.ts line 24). -/
def MAX_CARDS_PER_PAGE : Nat := 100

/-- The do-while pagination loop of `getColumnCards` (src/index.ts lines
195-200), with explicit fuel bounding the number of iterations (`none`
means the fuel ran out before a short page arrived). -/
def getColumnCardsLoop (columnId : JSNum) (net : NetEnv) :
    Nat → Nat → Option (Except JSError (List Card) × List Request)
  | _, 0 => none
  | page, fuel + 1 =>
    match getCardPage columnId (.num page) net with
    | (.error e, reqs) => some (.error e, reqs)
    | (.ok cardPage, reqs) =>
      if cardPage.length = MAX_CARDS_PER_PAGE then
        match getColumnCardsLoop columnId net (page + 1) fuel with
        | none => none
        | some (rest, reqs2) => some (rest.map (cardPage ++ ·), reqs ++ reqs2)
      else
        some (.ok cardPage, reqs)

/-- `getColumnCards` (src/index.ts lines 184-203): validates the column id,
then pages through the column starting at page 1. -/
def getColumnCards (columnId : JSNum) (net : NetEnv) (fuel : Nat) :
    Option (Except JSError (List Card) × List Request) :=
  if !columnId.isInteger then
    some (.error (.rangeError "Param columnId is not an integer"), [])
  else if jsLe columnId (.num 0) then
    some (.error (.rangeError "Param columnId cannot be negative"), [])
  else
    getColumnCardsLoop columnId net 1 fuel

/-- The JSON body of the health endpoint (spec section 3, `DeployHealth`):
the `latest_deploy_time` field may be absent. -/
structure Health where
  latest_deploy_time : Option String
deriving DecidableEq, Repr

/-- The parse of an HTTPS response body by `JSON.parse`. -/
inductive BodyParse where
  | parsed (h : Health)
  | malformed
deriving DecidableEq, Repr

/-- The result of the plain HTTPS GET performed by `getJSON`: a response
with a status code and a body, or a connection error. -/
inductive HttpGet where
  | response (status : Nat) (body : BodyParse)
  | connError
deriving DecidableEq, Repr

/-- `getJSON` (src/index.ts lines 210-242): rejects on a connection error,
on a non-success status, or on a `JSON.parse` failure. -/
def getJSON : HttpGet → Except JSError Health
  | .connError => .error (.error "connection error")
  | .response status body =>
    if !isSuccessStatus status then
      .error (.error "Request to fetch deploy time was not successful")
    else
      match body with
      | .malformed => .error (.error "JSON body could not be parsed")
      | .parsed h => .ok h

/-- `getDeployTime` (src/index.ts lines 248-265).  `dateOf` models the
ECMAScript `Date` constructor applied to a string: it never throws, and an
unparseable string yields an Invalid Date whose time value is NaN — so the
`try`/`catch` around `new Date(deployTimestamp)` in the source can never
take its catch branch.  The check `!deployTimestamp` is falsy both for a
missing field and for an empty string. -/
def getDeployTime (g : HttpGet) (dateOf : String → JSNum) : Except JSError JSNum :=
  match getJSON g with
  | .error e => .error e
  | .ok health =>
    match health.latest_deploy_time with
    | none => .error (.error "JSON from casa prod does not contain a valid deploy timestamp")
    | some deployTimestamp =>
      if deployTimestamp = "" then
        .error (.error "JSON from casa prod does not contain a valid deploy timestamp")
      else
        .ok (dateOf deployTimestamp)

/-- `getProject` (src/index.ts lines 274-291): validates the name, fails on
a non-success status, otherwise linearly scans for the first project with a
matching name. -/
def getProject (projectName : String) (fetch : Nat × List Project) :
    Except JSError (Option Project) :=
  if projectName = "" then
    .error (.rangeError "Param projectName must be a non empty string")
  else if !isSuccessStatus fetch.1 then
    .error (.error "Request to fetch project data was not successful")
  else
    .ok (fetch.2.find? (fun p => p.name == projectName))

/-- `getColumn` (src/index.ts lines 157-176): validates the name and the
project id, fails on a non-success status, otherwise linearly scans for the
first column with a matching name. -/
def getColumn (columnName : String) (projectId : Int) (fetch : Int → Nat × List Column) :
    Except JSError (Option Column) :=
  if columnName = "" then
    .error (.rangeError "Param projectName must be a non empty string")
  else if projectId < 0 then
    .error (.rangeError "Param projectId cannot be negative")
  else if !isSuccessStatus (fetch projectId).1 then
    .error (.error "Request to fetch project column list was not successful")
  else
    .ok ((fetch projectId).2.find? (fun c => c.name == columnName))

/-- ECMAScript `parseInt` with no radix argument on a decimal string
(modeled for the inputs the action receives: leading whitespace, an
optional sign, then a run of decimal digits).  It never throws; a string
whose first non-sign character is not a decimal digit yields NaN. -/
def jsParseInt (s : String) : JSNum :=
  let chars := s.toList.dropWhile Char.isWhitespace
  let signed : Int × List Char :=
    match chars with
    | '-' :: rest => (-1, rest)
    | '+' :: rest => (1, rest)
    | rest => (1, rest)
  let ds := signed.2.takeWhile Char.isDigit
  if ds.isEmpty then .nan
  else .num ((signed.1 * (ds.foldl (fun a c => a * 10 + (c.toNat - 48)) 0 : Nat) : Int) : ℚ)

/-- The environment of one run of the action: the current time, the health
endpoint, the `Date` constructor, the five configuration inputs that matter
to the orchestrator, and the board API responses. -/
structure Env where
  now : JSNum
  health : HttpGet
  dateOf : String → JSNum
  cardLimitColumnDone : String
  columnNameDone : String
  columnNameQA : String
  projectName : String
  projectsFetch : Nat × List Project
  columnsFetch : Int → Nat × List Column
  net : NetEnv

/-- How one run of `main` ends: the logged no-op exit of the deploy-time
gate, a completed run with its two counts, an error propagated to the
`main().catch` handler (process exit 1), or a run whose batch-mutation
interval callback crashed so that the awaited promise never settles. -/
inductive RunOutcome where
  | noRecentDeploy
  | completed (moved archived : Nat)
  | errored (e : JSError)
  | intervalCrash
deriving DecidableEq, Repr

/-- The archive half of `main` (src/index.ts lines 484-504): parse the
configured limit with `parseInt` (which never throws — the surrounding
`try`/`catch` is dead code), list the Done column, archive past the
limit. -/
def mainArchivePhase (env : Env) (fuel : Nat) (columnIdDone : Int) (movedCount : Nat) :
    Option (RunOutcome × List Request) :=
  match getColumnCards (.num columnIdDone) env.net fuel with
  | none => none
  | some (.error e, reqs) => some (.errored e, reqs)
  | some (.ok doneCards, reqs) =>
    match archiveCards doneCards (jsParseInt env.cardLimitColumnDone) env.net with
    | { result := .rejected e, dispatched := _, requests := areqs } =>
      some (.errored e, reqs ++ areqs)
    | { result := .crashed, dispatched := _, requests := areqs } =>
      some (.intervalCrash, reqs ++ areqs)
    | { result := .resolved archivedCount, dispatched := _, requests := areqs } =>
      some (.completed movedCount archivedCount, reqs ++ areqs)

/-- The move half of `main` (src/index.ts lines 465-477): list the QA
column, reverse the fetched order, move every card to the Done column, then
run the archive phase. -/
def mainMovePhase (env : Env) (fuel : Nat) (columnIdDone columnIdQA : Int) :
    Option (RunOutcome × List Request) :=
  match getColumnCards (.num columnIdQA) env.net fuel with
  | none => none
  | some (.error e, reqs) => some (.errored e, reqs)
  | some (.ok qaCards, reqs) =>
    match moveCards qaCards.reverse (.num columnIdDone) env.net with
    | { result := .rejected e, dispatched := _, requests := mreqs } =>
      some (.errored e, reqs ++ mreqs)
    | { result := .crashed, dispatched := _, requests := mreqs } =>
      some (.intervalCrash, reqs ++ mreqs)
    | { result := .resolved movedCount, dispatched := _, requests := mreqs } =>
      match mainArchivePhase env fuel columnIdDone movedCount with
      | none => none
      | some (outcome, reqs2) => some (outcome, reqs ++ mreqs ++ reqs2)

/-- `main` after the deploy-time gate (src/index.ts lines 410-463): validate
the three configured names, resolve the project, resolve the Done and QA
columns, then run the move and archive phases. -/
def mainAfterGate (env : Env) (fuel : Nat) : Option (RunOutcome × List Request) :=
  if env.columnNameDone = "" then
    some (.errored (.typeError "ERROR: Param done_column_name cannot be empty string"), [])
  else if env.columnNameQA = "" then
    some (.errored (.typeError "ERROR: Param QA_column_name cannot be empty string"), [])
  else if env.projectName = "" then
    some (.errored (.typeError "ERROR: Param project_name cannot be empty string"), [])
  else
    match getProject env.projectName env.projectsFetch with
    | .error e => some (.errored e, [])
    | .ok none => some (.errored (.error "No such project with matching name"), [])
    | .ok (some project) =>
      match getColumn env.columnNameDone project.id env.columnsFetch with
      | .error e => some (.errored e, [])
      | .ok none => some (.errored (.error "Could not find done column"), [])
      | .ok (some columnDone) =>
        match getColumn env.columnNameQA project.id env.columnsFetch with
        | .error e => some (.errored e, [])
        | .ok none => some (.errored (.error "Could not find QA column"), [])
        | .ok (some columnQA) =>
          mainMovePhase env fuel columnDone.id columnQA.id

/-- `main` (src/index.ts lines 394-505): fetch the deploy time; if the
difference between now and the deploy time exceeds 86,400,000 ms, log and
return (the no-op exit); otherwise continue with the located board.  The
returned request list records every board-API request the run issued. -/
def mainRun (env : Env) (fuel : Nat) : Option (RunOutcome × List Request) :=
  match getDeployTime env.health env.dateOf with
  | .error e => some (.errored e, [])
  | .ok deployTime =>
    if jsGt (jsSub env.now deployTime) (.num 86400000) then
      some (.noRecentDeploy, [])
    else
      mainAfterGate env fuel

/-- The operation threw or rejected, and issued no network request. -/
def failedNoRequestB {α : Type} (r : Except JSError α × List Request) : Bool :=
  (match r.1 with | .error _ => true | .ok _ => false) && r.2.isEmpty

/-- The batch rejected before its interval started: no card dispatched, no
request issued. -/
def rejectedNoRequestB (b : BatchRun) : Bool :=
  (match b.result with | .rejected _ => true | _ => false)
    && b.dispatched.isEmpty && b.requests.isEmpty

/-- `getColumnCards` threw before its loop, issuing no request (regardless
of fuel). -/
def colCardsFailedNoRequestB
    (o : Option (Except JSError (List Card) × List Request)) : Bool :=
  match o with
  | some r => failedNoRequestB r
  | none => false

/-- A board API on which every request succeeds with status 200 and every
card page is empty. -/
def net200 : NetEnv :=
  { pageResp := fun _ _ => some (200, [])
    moveResp := fun _ _ => some 200
    archiveResp := fun _ => some 200 }

/-- A column of `n` cards with ids 1..n. -/
def mkCards (n : Nat) : List Card :=
  (List.range n).map (fun i => ⟨.num ((i + 1 : ℕ) : ℚ), false⟩)

/-- Page `page` (1-based) of a column holding `allCards`, as the upstream
API serves it: up to `MAX_CARDS_PER_PAGE` cards starting at position
`(page-1)*MAX_CARDS_PER_PAGE`. -/
def pagesOf (allCards : List Card) (page : Nat) : List Card :=
  (allCards.drop ((page - 1) * MAX_CARDS_PER_PAGE)).take MAX_CARDS_PER_PAGE

/-- A board API serving one column of `allCards` (any column id), paginated
canonically, with all mutations succeeding. -/
def columnNet (allCards : List Card) : NetEnv :=
  { pageResp := fun _ p =>
      match p with
      | .num q => some (200, pagesOf allCards q.num.toNat)
      | .nan => some (200, [])
    moveResp := fun _ _ => some 200
    archiveResp := fun _ => some 200 }

/-- The page-read requests for pages `p`, `p+1`, …, `p+k-1` of a column. -/
def pageRequests (cid : JSNum) (p k : ℕ) : List Request :=
  (List.range' p k).map (fun (i : ℕ) => Request.cardPage cid (.num (i : ℚ)))

/-- A board API with a project "CASA" (id 1) holding columns "Done" (id 2)
and "QA" (id 3), whose single card pages are `qaCards` and `doneCards`, and
on which every mutation succeeds. -/
def boardNet (qaCards doneCards : List Card) : NetEnv :=
  { pageResp := fun cid p =>
      if cid = .num 3 && p = .num 1 then some (200, qaCards)
      else if cid = .num 2 && p = .num 1 then some (200, doneCards)
      else some (200, [])
    moveResp := fun _ _ => some 200
    archiveResp := fun _ => some 200 }

/-- A fully concrete run environment over `boardNet`, with the current time
0 and a healthy deploy-time endpoint reporting `ts`. -/
def mkEnv (limitStr ts : String) (dateOf : String → JSNum)
    (qaCards doneCards : List Card) : Env :=
  { now := .num 0
    health := .response 200 (.parsed ⟨some ts⟩)
    dateOf := dateOf
    cardLimitColumnDone := limitStr
    columnNameDone := "Done"
    columnNameQA := "QA"
    projectName := "CASA"
    projectsFetch := (200, [⟨1, "CASA"⟩])
    columnsFetch := fun _ => (200, [⟨2, "Done"⟩, ⟨3, "QA"⟩])
    net := boardNet qaCards doneCards }

/-- Environment for the move-order scenario: QA holds cards A, B, C with
ids 10, 11, 12 (fetch order); Done holds cards 20, 21 and the limit is 1. -/
def envC8 : Env :=
  mkEnv "1" "2024-01-01T00:00:00Z" (fun _ => .num 0)
    [⟨.num 10, false⟩, ⟨.num 11, false⟩, ⟨.num 12, false⟩]
    [⟨.num 20, false⟩, ⟨.num 21, false⟩]

/-- Environment whose health endpoint reports an unparseable deploy time
(the `Date` constructor yields an Invalid Date, i.e. NaN). -/
def envC9 : Env :=
  mkEnv "0" "not-a-date" (fun _ => .nan)
    [⟨.num 1, false⟩] [⟨.num 20, false⟩]

/-- Environment whose configured done-column card limit is the non-numeric
string "abc". -/
def envC10 : Env :=
  mkEnv "abc" "2024-01-01T00:00:00Z" (fun _ => .num 0)
    [⟨.num 1, false⟩] [⟨.num 20, false⟩]

/-- Environment whose deploy time is more than 24 hours old: the current
time is 100,000,000 ms and the reported deploy time is 0. -/
def envStale : Env :=
  { mkEnv "0" "1970-01-01T00:00:00Z" (fun _ => .num 0)
      [⟨.num 1, false⟩] [⟨.num 20, false⟩] with
    now := .num 100000000 }

/-! Helper lemmas about the JavaScript number model. -/

theorem jsSub_num (a b : ℚ) : jsSub (.num a) (.num b) = .num (a - b) := by
  simp only [jsSub, Rat.sub_def' a b]

theorem rat_den_one_eq_num (q : ℚ) (h : q.den = 1) : q = (q.num : ℚ) := by
  have h2 := Rat.num_div_den q
  rw [h] at h2
  simpa using h2.symm

theorem posIntJS_of_isInteger_not_lt_one (v : JSNum) (h1 : v.isInteger = true)
    (h2 : jsLt v (.num 1) = false) : posIntJS v = true := by
  cases v with
  | nan => simp [JSNum.isInteger] at h1
  | num q =>
    simp only [jsLt, decide_eq_false_iff_not, not_lt] at h2
    simp only [posIntJS, h1, jsLe, Bool.true_and, decide_eq_true_eq]
    exact h2

theorem posIntJS_of_isInteger_not_le_zero (v : JSNum) (h1 : v.isInteger = true)
    (h2 : jsLe v (.num 0) = false) : posIntJS v = true := by
  cases v with
  | nan => simp [JSNum.isInteger] at h1
  | num q =>
    simp only [JSNum.isInteger, decide_eq_true_eq] at h1
    simp only [jsLe, decide_eq_false_iff_not, not_le] at h2
    have hq : q = (q.num : ℚ) := rat_den_one_eq_num q h1
    have hpos : 0 < q.num := by
      rw [hq] at h2
      exact_mod_cast h2
    have hone : 1 ≤ q := by
      rw [hq]
      exact_mod_cast hpos
    simp only [posIntJS, JSNum.isInteger, jsLe, Bool.and_eq_true, decide_eq_true_eq]
    exact ⟨h1, hone⟩

theorem nonnegIntJS_of_isInteger_not_lt_zero (v : JSNum) (h1 : v.isInteger = true)
    (h2 : jsLt v (.num 0) = false) : nonnegIntJS v = true := by
  cases v with
  | nan => simp [JSNum.isInteger] at h1
  | num q =>
    simp only [jsLt, decide_eq_false_iff_not, not_lt] at h2
    simp only [nonnegIntJS, h1, jsLe, Bool.true_and, decide_eq_true_eq]
    exact h2

theorem posIntJS_checks (v : JSNum) (h : posIntJS v = true) :
    v.isInteger = true ∧ jsLe v (.num 0) = false ∧ jsLt v (.num 1) = false ∧
      jsLe (.num 1) v = true := by
  cases v with
  | nan => simp [posIntJS, JSNum.isInteger] at h
  | num q =>
    simp only [posIntJS, Bool.and_eq_true] at h
    obtain ⟨h1, h2⟩ := h
    simp only [jsLe, decide_eq_true_eq] at h2
    refine ⟨h1, ?_, ?_, ?_⟩
    · simp only [jsLe, decide_eq_false_iff_not, not_le]
      linarith
    · simp only [jsLt, decide_eq_false_iff_not, not_lt]
      exact h2
    · simp only [jsLe, decide_eq_true_eq]
      exact h2

theorem nonnegIntJS_checks (v : JSNum) (h : nonnegIntJS v = true) :
    v.isInteger = true ∧ jsLt v (.num 0) = false := by
  cases v with
  | nan => simp [nonnegIntJS, JSNum.isInteger] at h
  | num q =>
    simp only [nonnegIntJS, Bool.and_eq_true] at h
    obtain ⟨h1, h2⟩ := h
    simp only [jsLe, decide_eq_true_eq] at h2
    refine ⟨h1, ?_⟩
    simp only [jsLt, decide_eq_false_iff_not, not_lt]
    exact h2

theorem isInteger_natCast (n : ℕ) : (JSNum.num (n : ℚ)).isInteger = true := by
  simp [JSNum.isInteger]

/-! Helper lemmas about the interval dispatch loop and the counters. -/

theorem intervalDispatch_nil : intervalDispatch [] = none := rfl

theorem intervalDispatch_of_ne_nil (batch : List Card) (h : batch ≠ []) :
    intervalDispatch batch = some batch := by
  induction batch with
  | nil => exact absurd rfl h
  | cons card rest ih =>
    by_cases hr : rest = []
    · subst hr
      simp [intervalDispatch]
    · simp only [intervalDispatch, List.isEmpty_eq_true]
      rw [if_neg hr, ih hr]

theorem foldl_countersStep (l : List Outcome) (c : Counters) :
    l.foldl countersStep c =
      ⟨c.attempts + l.length, c.successes + l.count .success,
       c.already + l.count .alreadyDone,
       c.failures + (l.count .failStatus + l.count .failError)⟩ := by
  induction l generalizing c with
  | nil => simp
  | cons o rest ih =>
    simp only [List.foldl_cons, ih, List.count_cons, List.length_cons]
    cases o <;>
      simp only [countersStep, Counters.mk.injEq] <;>
      refine ⟨by omega, by simp <;> omega, by simp <;> omega, by simp <;> omega⟩

theorem runCounters_eq (l : List Outcome) :
    runCounters l =
      ⟨l.length, l.count .success, l.count .alreadyDone,
       l.count .failStatus + l.count .failError⟩ := by
  simp [runCounters, foldl_countersStep]

/-! Helper lemmas about `jsSlice`. -/

theorem jsSlice_natCast (l : List Card) (L : ℕ) :
    jsSlice l (.num (L : ℚ)) = l.drop L := by
  have ht : jsTrunc (L : ℚ) = (L : ℤ) := by
    unfold jsTrunc
    rw [if_pos (by exact_mod_cast Nat.zero_le L), Int.floor_natCast]
  simp only [jsSlice, ht]
  rw [if_neg (by omega)]
  congr 1

/-! Helper lemmas about `runBatch`, `moveCards` and `archiveCards`. -/

theorem runBatch_dispatched (batch : List Card) (att : Card → Outcome × List Request) :
    (runBatch batch att).dispatched = batch := by
  by_cases h : batch = []
  · subst h
    rfl
  · unfold runBatch
    rw [intervalDispatch_of_ne_nil _ h]

theorem runBatch_of_ne_nil (batch : List Card) (att : Card → Outcome × List Request)
    (h : batch ≠ []) :
    runBatch batch att =
      { result := .resolved (runCounters (batch.map (fun c => (att c).1))).successes
        dispatched := batch
        requests := (batch.map (fun c => (att c).2)).flatten } := by
  unfold runBatch
  rw [intervalDispatch_of_ne_nil _ h]

theorem archiveCards_natCast_limit (cards : List Card) (L : ℕ) (net : NetEnv) :
    archiveCards cards (.num (L : ℚ)) net = runBatch (cards.drop L) (archiveAttempt net) := by
  simp only [archiveCards]
  rw [if_neg (by simp [isInteger_natCast]), if_neg (by simp [jsLt]), jsSlice_natCast]

theorem moveCards_valid (cards : List Card) (cid : JSNum) (net : NetEnv)
    (h : posIntJS cid = true) (hne : cards ≠ []) :
    moveCards cards cid net = runBatch cards (moveAttempt cid net) := by
  obtain ⟨h1, h2, _, _⟩ := posIntJS_checks cid h
  simp only [moveCards]
  rw [if_neg (by simp [h2]), if_neg (by simp [h1]),
    if_neg (by simp [List.isEmpty_eq_true, hne])]

theorem archiveCards_valid (cards : List Card) (lim : JSNum) (net : NetEnv)
    (h : nonnegIntJS lim = true) :
    archiveCards cards lim net = runBatch (jsSlice cards lim) (archiveAttempt net) := by
  obtain ⟨h1, h2⟩ := nonnegIntJS_checks lim h
  simp only [archiveCards]
  rw [if_neg (by simp [h1]), if_neg (by simp [h2])]

theorem counts_sum (l : List Outcome) :
    (runCounters l).successes + (runCounters l).already + (runCounters l).failures
      = l.length := by
  rw [runCounters_eq]
  show l.count .success + l.count .alreadyDone
      + (l.count .failStatus + l.count .failError) = l.length
  induction l with
  | nil => simp
  | cons o rest ih =>
    cases o <;> simp [List.count_cons] <;> omega

/-- The order-independent content of one batch: for any arrival order of the
per-card completions, the counters take the same values, determined by the
dispatch-order outcomes. -/
theorem batch_perm_counts (batch : List Card) (att : Card → Outcome × List Request)
    (arr : List Outcome) (hp : arr.Perm (batch.map (fun c => (att c).1))) :
    (runCounters arr).attempts = batch.length
    ∧ (runCounters arr).successes + (runCounters arr).already
        + (runCounters arr).failures = batch.length
    ∧ (runCounters (batch.map (fun c => (att c).1))).successes
        = (runCounters arr).successes
    ∧ (runCounters arr).successes ≤ batch.length
    ∧ (∀ k, k < arr.length → (runCounters (arr.take k)).attempts < batch.length) := by
  have hlen : arr.length = batch.length := by
    have := hp.length_eq
    simpa using this
  refine ⟨?_, ?_, ?_, ?_, ?_⟩
  · rw [runCounters_eq]
    exact hlen
  · rw [counts_sum]
    exact hlen
  · rw [runCounters_eq, runCounters_eq]
    exact (hp.count_eq .success).symm
  · rw [runCounters_eq]
    calc arr.count .success ≤ arr.length := List.count_le_length _ _
      _ = batch.length := hlen
  · intro k hk
    rw [runCounters_eq]
    simp only [List.length_take]
    omega

/-! Per-operation validation lemmas: an invalid parameter makes the
operation throw or reject before it issues any request. -/

theorem getCardPage_invalid (x y : JSNum) (net : NetEnv)
    (h : posIntJS x = false ∨ posIntJS y = false) :
    failedNoRequestB (getCardPage x y net) = true := by
  by_cases h1 : x.isInteger = true
  · by_cases h2 : jsLt x (.num 1) = true
    · unfold getCardPage
      rw [if_neg (by simp [h1]), if_pos h2]
      rfl
    · have hx := posIntJS_of_isInteger_not_lt_one x h1 (by simpa using h2)
      have hy : posIntJS y = false := by
        rcases h with h | h
        · rw [hx] at h
          exact absurd h (by simp)
        · exact h
      by_cases h3 : y.isInteger = true
      · by_cases h4 : jsLt y (.num 1) = true
        · unfold getCardPage
          rw [if_neg (by simp [h1]), if_neg (by simpa using h2),
            if_neg (by simp [h3]), if_pos h4]
          rfl
        · have := posIntJS_of_isInteger_not_lt_one y h3 (by simpa using h4)
          rw [this] at hy
          exact absurd hy (by simp)
      · unfold getCardPage
        rw [if_neg (by simp [h1]), if_neg (by simpa using h2),
          if_pos (by simpa using h3)]
        rfl
  · unfold getCardPage
    rw [if_pos (by simpa using h1)]
    rfl

theorem moveCard_invalid (x y : JSNum) (net : NetEnv)
    (h : posIntJS x = false ∨ posIntJS y = false) :
    failedNoRequestB (moveCard x y net) = true := by
  by_cases c1 : jsLe x (.num 0) = true
  · unfold moveCard
    rw [if_pos c1]
    rfl
  · by_cases c2 : jsLe y (.num 0) = true
    · unfold moveCard
      rw [if_neg c1, if_pos c2]
      rfl
    · by_cases c3 : x.isInteger = true
      · have hx := posIntJS_of_isInteger_not_le_zero x c3 (by simpa using c1)
        have hy : posIntJS y = false := by
          rcases h with h | h
          · rw [hx] at h
            exact absurd h (by simp)
          · exact h
        by_cases c4 : y.isInteger = true
        · have := posIntJS_of_isInteger_not_le_zero y c4 (by simpa using c2)
          rw [this] at hy
          exact absurd hy (by simp)
        · unfold moveCard
          rw [if_neg c1, if_neg c2, if_neg (by simp [c3]), if_pos (by simpa using c4)]
          rfl
      · unfold moveCard
        rw [if_neg c1, if_neg c2, if_pos (by simpa using c3)]
        rfl

theorem archiveCard_invalid (x : JSNum) (net : NetEnv) (h : posIntJS x = false) :
    failedNoRequestB (archiveCard x net) = true := by
  by_cases c1 : x.isInteger = true
  · by_cases c2 : jsLt x (.num 1) = true
    · unfold archiveCard
      rw [if_neg (by simp [c1]), if_pos c2]
      rfl
    · have := posIntJS_of_isInteger_not_lt_one x c1 (by simpa using c2)
      rw [this] at h
      exact absurd h (by simp)
  · unfold archiveCard
    rw [if_pos (by simpa using c1)]
    rfl

theorem getColumnCards_invalid (x : JSNum) (net : NetEnv) (fuel : Nat)
    (h : posIntJS x = false) :
    colCardsFailedNoRequestB (getColumnCards x net fuel) = true := by
  by_cases c1 : x.isInteger = true
  · by_cases c2 : jsLe x (.num 0) = true
    · unfold getColumnCards
      rw [if_neg (by simp [c1]), if_pos c2]
      rfl
    · have := posIntJS_of_isInteger_not_le_zero x c1 (by simpa using c2)
      rw [this] at h
      exact absurd h (by simp)
  · unfold getColumnCards
    rw [if_pos (by simpa using c1)]
    rfl

theorem moveCards_invalid (cards : List Card) (x : JSNum) (net : NetEnv)
    (h : posIntJS x = false) :
    rejectedNoRequestB (moveCards cards x net) = true := by
  by_cases c1 : jsLe x (.num 0) = true
  · unfold moveCards
    rw [if_pos c1]
    rfl
  · by_cases c2 : x.isInteger = true
    · have := posIntJS_of_isInteger_not_le_zero x c2 (by simpa using c1)
      rw [this] at h
      exact absurd h (by simp)
    · unfold moveCards
      rw [if_neg c1, if_pos (by simpa using c2)]
      rfl

theorem archiveCards_invalid (cards : List Card) (x : JSNum) (net : NetEnv)
    (h : nonnegIntJS x = false) :
    rejectedNoRequestB (archiveCards cards x net) = true := by
  by_cases c1 : x.isInteger = true
  · by_cases c2 : jsLt x (.num 0) = true
    · simp only [archiveCards]
      rw [if_neg (by simp [c1]), if_pos c2]
      rfl
    · have := nonnegIntJS_of_isInteger_not_lt_zero x c1 (by simpa using c2)
      rw [this] at h
      exact absurd h (by simp)
  · simp only [archiveCards]
    rw [if_pos (by simpa using c1)]
    rfl

/-! Pagination lemmas. -/

theorem pagesOf_length (allCards : List Card) (p : Nat) :
    (pagesOf allCards p).length = min 100 (allCards.length - (p - 1) * 100) := by
  simp [pagesOf, MAX_CARDS_PER_PAGE]

theorem getCardPage_columnNet (allCards : List Card) (cid : JSNum) (p : Nat)
    (h1 : cid.isInteger = true) (h2 : jsLt cid (.num 1) = false) (hp : 1 ≤ p) :
    getCardPage cid (.num (p : ℚ)) (columnNet allCards)
      = (.ok (pagesOf allCards p), [.cardPage cid (.num (p : ℚ))]) := by
  have hplt : jsLt (.num (p : ℚ)) (.num 1) = false := by
    simp only [jsLt, decide_eq_false_iff_not, not_lt]
    exact_mod_cast hp
  unfold getCardPage
  rw [if_neg (by simp [h1]), if_neg (by simp [h2]),
    if_neg (by simp [isInteger_natCast]), if_neg (by simp [hplt])]
  simp only [columnNet]
  rw [show ((p : ℚ).num.toNat) = p by simp]
  simp [isSuccessStatus]

theorem pageRequests_succ (cid : JSNum) (p k : ℕ) :
    pageRequests cid p (k + 1)
      = Request.cardPage cid (.num (p : ℚ)) :: pageRequests cid (p + 1) k := by
  simp [pageRequests, List.range'_succ]

theorem pageRequests_one (cid : JSNum) (p : ℕ) :
    pageRequests cid p 1 = [Request.cardPage cid (.num (p : ℚ))] := by
  simp [pageRequests]

theorem getColumnCardsLoop_columnNet (allCards : List Card) (cid : JSNum)
    (h1 : cid.isInteger = true) (h2 : jsLt cid (.num 1) = false) :
    ∀ (fuel p : Nat), 1 ≤ p →
      (allCards.length - (p - 1) * 100) / 100 + 1 ≤ fuel →
      getColumnCardsLoop cid (columnNet allCards) p fuel
        = some (.ok (allCards.drop ((p - 1) * 100)),
            pageRequests cid p ((allCards.length - (p - 1) * 100) / 100 + 1)) := by
  intro fuel
  induction fuel with
  | zero =>
    intro p hp hf
    exact absurd hf (by omega)
  | succ fuel ih =>
    intro p hp hf
    have hpage := getCardPage_columnNet allCards cid p h1 h2 hp
    simp only [getColumnCardsLoop]
    rw [hpage]
    dsimp only
    have hlen := pagesOf_length allCards p
    by_cases hfull : (pagesOf allCards p).length = MAX_CARDS_PER_PAGE
    · have hR : 100 ≤ allCards.length - (p - 1) * 100 := by
        rw [hlen] at hfull
        simp only [MAX_CARDS_PER_PAGE] at hfull
        omega
      have harith : allCards.length - ((p + 1) - 1) * 100
          = (allCards.length - (p - 1) * 100) - 100 := by
        have : (p - 1) * 100 + 100 = p * 100 := by
          cases p with
          | zero => omega
          | succ n => simp [Nat.succ_sub_one]; ring
        omega
      have hdiv : (allCards.length - ((p + 1) - 1) * 100) / 100
          = (allCards.length - (p - 1) * 100) / 100 - 1 := by
        rw [harith]
        omega
      have hf2 : (allCards.length - ((p + 1) - 1) * 100) / 100 + 1 ≤ fuel := by
        rw [hdiv]
        have hpos : 1 ≤ (allCards.length - (p - 1) * 100) / 100 := by
          omega
        omega
      rw [if_pos hfull, ih (p + 1) (by omega) hf2]
      have hconcat : pagesOf allCards p ++ allCards.drop (((p + 1) - 1) * 100)
          = allCards.drop ((p - 1) * 100) := by
        have hstep : (p - 1) * 100 + 100 = p * 100 := by
          cases p with
          | zero => omega
          | succ n => simp [Nat.succ_sub_one]; ring
        have hdd : allCards.drop (((p + 1) - 1) * 100)
            = (allCards.drop ((p - 1) * 100)).drop 100 := by
          rw [List.drop_drop]
          congr 1
          omega
        rw [hdd]
        simp only [pagesOf, MAX_CARDS_PER_PAGE]
        exact List.take_append_drop 100 _
      have hcount : (allCards.length - (p - 1) * 100) / 100 + 1
          = ((allCards.length - ((p + 1) - 1) * 100) / 100 + 1) + 1 := by
        rw [hdiv]
        omega
      have hreq : pageRequests cid p ((allCards.length - (p - 1) * 100) / 100 + 1)
          = Request.cardPage cid (.num (p : ℚ))
            :: pageRequests cid (p + 1) ((allCards.length - ((p + 1) - 1) * 100) / 100 + 1) := by
        rw [hcount, pageRequests_succ]
      rw [hreq]
      simp only [Except.map]
      rw [hconcat]
      rfl
    · have hR : allCards.length - (p - 1) * 100 < 100 := by
        rw [hlen] at hfull
        simp only [MAX_CARDS_PER_PAGE] at hfull
        omega
      rw [if_neg hfull]
      have hshort : pagesOf allCards p = allCards.drop ((p - 1) * 100) := by
        simp only [pagesOf, MAX_CARDS_PER_PAGE]
        apply List.take_of_length_le
        rw [List.length_drop]
        omega
      have hone : (allCards.length - (p - 1) * 100) / 100 + 1 = 1 := by
        omega
      rw [hshort, hone, pageRequests_one]

theorem flatten_map_singleton {α β : Type} (l : List α) (f : α → β) :
    (l.map (fun x => [f x])).flatten = l.map f := by
  induction l with
  | nil => rfl
  | cons x rest ih => simp [ih]

theorem moveAttempt_requests (cid : JSNum) (net : NetEnv) (c : Card)
    (hc : posIntJS c.id = true) (hcid : posIntJS cid = true) :
    (moveAttempt cid net c).2 = [.move c.id cid] := by
  obtain ⟨h1, h2, _, _⟩ := posIntJS_checks c.id hc
  obtain ⟨g1, g2, _, _⟩ := posIntJS_checks cid hcid
  unfold moveAttempt moveCard
  rw [if_neg (by simp [h2]), if_neg (by simp [g2]), if_neg (by simp [h1]),
    if_neg (by simp [g1])]

/-- `moveCards` issues its requests in the order of its input list: one move
request per card, in dispatch order. -/
theorem moveCards_requests (cards : List Card) (cid : JSNum) (net : NetEnv)
    (hcid : posIntJS cid = true) (hids : ∀ c ∈ cards, posIntJS c.id = true) :
    (moveCards cards cid net).requests = cards.map (fun c => Request.move c.id cid) := by
  by_cases hne : cards = []
  · subst hne
    obtain ⟨h1, h2, _, _⟩ := posIntJS_checks cid hcid
    simp only [moveCards]
    rw [if_neg (by simp [h2]), if_neg (by simp [h1])]
    simp
  · rw [moveCards_valid _ _ _ hcid hne, runBatch_of_ne_nil _ _ hne]
    dsimp only
    rw [List.map_congr_left (fun c hc => moveAttempt_requests cid net c (hids c hc) hcid)]
    exact flatten_map_singleton cards _

/-! Orchestrator lemmas: once past the deploy-time gate, no code path can
produce the no-op outcome again. -/

theorem mainArchivePhase_outcome (env : Env) (fuel : Nat) (cid : Int) (mc : Nat) :
    ∀ o tr, mainArchivePhase env fuel cid mc = some (o, tr) → o ≠ .noRecentDeploy := by
  intro o tr h
  unfold mainArchivePhase at h
  repeat' split at h
  all_goals try simp_all
  all_goals (obtain ⟨ho, _⟩ := h; subst ho; simp)

theorem mainMovePhase_outcome (env : Env) (fuel : Nat) (cidD cidQ : Int) :
    ∀ o tr, mainMovePhase env fuel cidD cidQ = some (o, tr) → o ≠ .noRecentDeploy := by
  intro o tr h
  unfold mainMovePhase at h
  repeat' split at h
  all_goals try simp_all
  all_goals try (obtain ⟨ho, _⟩ := h; subst ho; simp)
  all_goals
    (obtain ⟨ho, _⟩ := h
     subst ho
     exact mainArchivePhase_outcome _ _ _ _ _ _ (by assumption))

theorem mainAfterGate_outcome (env : Env) (fuel : Nat) :
    ∀ o tr, mainAfterGate env fuel = some (o, tr) → o ≠ .noRecentDeploy := by
  intro o tr h
  unfold mainAfterGate at h
  repeat' split at h
  all_goals try simp_all
  all_goals try (obtain ⟨ho, _⟩ := h; subst ho; simp)
  all_goals exact mainMovePhase_outcome _ _ _ _ _ _ h

/-! Claim theorems. -/

/-- C1: for an empty input, `moveCards` resolves immediately with 0 and
issues no requests, as claimed; but `archiveCards` called with a card list
of length 1 and the valid limit 2 (so the list of cards to be mutated,
`cards.slice(limit)`, is empty) does not resolve with 0: its first interval
tick reads the card at index 0 of the empty list (`undefined`) and crashes
dereferencing `.id`, so the promise never settles. -/
theorem emptyBatch_C1 :
    (moveCards [] (.num 5) net200).result = .resolved 0
    ∧ (moveCards [] (.num 5) net200).requests = []
    ∧ (archiveCards [⟨.num 1, false⟩] (.num 2) net200).result = .crashed
    ∧ (archiveCards [⟨.num 1, false⟩] (.num 2) net200).requests = [] := by
  refine ⟨?_, ?_, ?_, ?_⟩ <;> decide

/-- C2: `getDeployTime` does fail on a non-success status, on a connection
failure, and on a missing `latest_deploy_time` field; but for a present yet
unparseable `latest_deploy_time` value it does not fail: `new Date` yields
an Invalid Date (NaN time value) without throwing, and the function returns
that timestamp. -/
theorem deployTime_C2 :
    getDeployTime (.response 500 (.parsed ⟨some "2024-01-01"⟩)) (fun _ => .num 0)
      = .error (.error "Request to fetch deploy time was not successful")
    ∧ getDeployTime .connError (fun _ => .num 0)
      = .error (.error "connection error")
    ∧ getDeployTime (.response 200 (.parsed ⟨none⟩)) (fun _ => .num 0)
      = .error (.error "JSON from casa prod does not contain a valid deploy timestamp")
    ∧ getDeployTime (.response 200 (.parsed ⟨some "not-a-date"⟩)) (fun _ => .nan)
      = .ok .nan := by
  refine ⟨?_, ?_, ?_, ?_⟩ <;> rfl

/-- C5: for every card list of length N and every non-negative integer
limit L, `archiveCards` attempts archival for exactly the cards of
`cards.slice(limit)`: the dispatched cards are precisely the tail of the
input beyond index L (so their count is `max (0, N - L)`), and the first L
cards are untouched, leading the list unchanged. -/
theorem archiveSelection_C5 (cards : List Card) (L : ℕ) (net : NetEnv) :
    (archiveCards cards (.num (L : ℚ)) net).dispatched = cards.drop L
    ∧ (archiveCards cards (.num (L : ℚ)) net).dispatched.length = cards.length - L
    ∧ (((archiveCards cards (.num (L : ℚ)) net).dispatched.length : ℤ)
        = max 0 ((cards.length : ℤ) - (L : ℤ)))
    ∧ cards.take L ++ (archiveCards cards (.num (L : ℚ)) net).dispatched = cards := by
  have hd : (archiveCards cards (.num (L : ℚ)) net).dispatched = cards.drop L := by
    rw [archiveCards_natCast_limit, runBatch_dispatched]
  refine ⟨hd, ?_, ?_, ?_⟩
  · rw [hd, List.length_drop]
  · rw [hd, List.length_drop]
    omega
  · rw [hd]
    exact List.take_append_drop L cards

/-- C6 (amended): in every batch mutation whose attempted-card list is
nonempty — and in `moveCards` also for the empty list — regardless of the
order in which the per-card responses arrive, each card is attempted exactly
once (the arrival order is a permutation of the one-outcome-per-card
dispatch list), the counters satisfy
`successes + already + failures = attempts = batch size`, the batch resolves
with the success counter (which never exceeds the batch size), and before
the last response arrives the attempt counter is still below the batch size
(so resolution happens exactly at the last completion).  `archiveCards` with
an empty attempted-card list, by contrast, never resolves (see the
counterexample). -/
theorem batchCounts_C6 (cards : List Card) (cid lim : JSNum) (netM netA : NetEnv)
    (arrM arrA : List Outcome) :
    (posIntJS cid = true →
     arrM.Perm (cards.map (fun c => (moveAttempt cid netM c).1)) →
       (runCounters arrM).attempts = cards.length
       ∧ (runCounters arrM).successes + (runCounters arrM).already
           + (runCounters arrM).failures = cards.length
       ∧ (moveCards cards cid netM).result = .resolved (runCounters arrM).successes
       ∧ (runCounters arrM).successes ≤ cards.length
       ∧ (∀ k, k < arrM.length →
           (runCounters (arrM.take k)).attempts < cards.length))
    ∧ (nonnegIntJS lim = true →
       jsSlice cards lim ≠ [] →
       arrA.Perm ((jsSlice cards lim).map (fun c => (archiveAttempt netA c).1)) →
         (runCounters arrA).attempts = (jsSlice cards lim).length
         ∧ (runCounters arrA).successes + (runCounters arrA).already
             + (runCounters arrA).failures = (jsSlice cards lim).length
         ∧ (archiveCards cards lim netA).result = .resolved (runCounters arrA).successes
         ∧ (runCounters arrA).successes ≤ (jsSlice cards lim).length
         ∧ (∀ k, k < arrA.length →
             (runCounters (arrA.take k)).attempts < (jsSlice cards lim).length)) := by
  constructor
  · intro hcid hperm
    obtain ⟨h1, h2, h3, h4, h5⟩ := batch_perm_counts cards (moveAttempt cid netM) arrM hperm
    refine ⟨h1, h2, ?_, h4, h5⟩
    by_cases hne : cards = []
    · subst hne
      have harr : arrM = [] := by
        have hp2 := hperm
        simp only [List.map_nil] at hp2
        exact hp2.eq_nil
      subst harr
      obtain ⟨hc1, hc2, _, _⟩ := posIntJS_checks cid hcid
      simp only [moveCards]
      rw [if_neg (by simp [hc2]), if_neg (by simp [hc1])]
      rfl
    · rw [moveCards_valid cards cid netM hcid hne, runBatch_of_ne_nil _ _ hne]
      rw [h3]
  · intro hlim hnonempty hperm
    obtain ⟨h1, h2, h3, h4, h5⟩ :=
      batch_perm_counts (jsSlice cards lim) (archiveAttempt netA) arrA hperm
    refine ⟨h1, h2, ?_, h4, h5⟩
    rw [archiveCards_valid cards lim netA hlim, runBatch_of_ne_nil _ _ hnonempty]
    rw [h3]

/-- C6 counterexample: `archiveCards` on an empty card list with the valid
limit 0 has an empty attempted-card list, so the attempt count (0) equals
the batch size (0) from the start — yet the promise never resolves: the
first interval tick crashes reading `undefined`, refuting the claim that
every batch mutation resolves once the attempt count reaches the batch
size. -/
theorem batchCounts_C6_counterexample :
    (archiveCards [] (.num 0) net200).result = .crashed := by
  decide

/-- C6 witness: the amended theorem applied to a concrete two-card batch for
both mutators, with the responses arriving in dispatch order. -/
theorem batchCounts_C6_witness :
    (moveCards [⟨.num 1, false⟩, ⟨.num 2, false⟩] (.num 9) net200).result
      = .resolved (runCounters ([⟨.num 1, false⟩, ⟨.num 2, false⟩].map
          (fun c => (moveAttempt (.num 9) net200 c).1))).successes
    ∧ (archiveCards [⟨.num 1, false⟩, ⟨.num 2, false⟩] (.num 1) net200).result
      = .resolved (runCounters ((jsSlice [⟨.num 1, false⟩, ⟨.num 2, false⟩] (.num 1)).map
          (fun c => (archiveAttempt net200 c).1))).successes := by
  have h := batchCounts_C6 [⟨.num 1, false⟩, ⟨.num 2, false⟩] (.num 9) (.num 1)
    net200 net200
    ([⟨.num 1, false⟩, ⟨.num 2, false⟩].map (fun c => (moveAttempt (.num 9) net200 c).1))
    ((jsSlice [⟨.num 1, false⟩, ⟨.num 2, false⟩] (.num 1)).map
      (fun c => (archiveAttempt net200 c).1))
  exact ⟨(h.1 (by decide) (List.Perm.refl _)).2.2.1,
    (h.2 (by decide) (by decide) (List.Perm.refl _)).2.2.1⟩

/-- C7: for every validated operation — `getCardPage`, `getColumnCards`,
`moveCard`, `moveCards`, `archiveCard`, `archiveCards` — if a supplied id
(or page number) is not a positive integer, or the archive limit is not a
non-negative integer (covering the non-integer, negative, and
less-than-one cases), the operation throws or rejects before issuing any
network request of its own. -/
theorem validation_C7 (a b : JSNum) (cards : List Card) (net : NetEnv) (fuel : Nat) :
    (posIntJS a = false ∨ posIntJS b = false →
      failedNoRequestB (getCardPage a b net) = true
      ∧ failedNoRequestB (moveCard a b net) = true)
    ∧ (posIntJS a = false →
      colCardsFailedNoRequestB (getColumnCards a net fuel) = true
      ∧ failedNoRequestB (archiveCard a net) = true
      ∧ rejectedNoRequestB (moveCards cards a net) = true)
    ∧ (nonnegIntJS a = false →
      rejectedNoRequestB (archiveCards cards a net) = true) :=
  ⟨fun h => ⟨getCardPage_invalid a b net h, moveCard_invalid a b net h⟩,
   fun h => ⟨getColumnCards_invalid a net fuel h, archiveCard_invalid a net h,
     moveCards_invalid cards a net h⟩,
   fun h => archiveCards_invalid cards a net h⟩

/-- C4: over a column holding `allCards` (paginated canonically by the
upstream API), `getColumnCards` requests pages 1, 2, 3, …, returns the
concatenation of all fetched pages (that is, the whole column), and stops
exactly at the first page of length strictly below 100: it requests pages
1 through `N/100 + 1`, every earlier page has length exactly 100, and the
last requested page is short. -/
theorem getColumnCards_C4 (allCards : List Card) (cid : JSNum) (fuel : Nat)
    (h1 : cid.isInteger = true) (h2 : jsLe cid (.num 0) = false)
    (hfuel : allCards.length / 100 + 1 ≤ fuel) :
    getColumnCards cid (columnNet allCards) fuel
      = some (.ok allCards, pageRequests cid 1 (allCards.length / 100 + 1))
    ∧ (pagesOf allCards (allCards.length / 100 + 1)).length < 100
    ∧ (∀ i, 1 ≤ i → i ≤ allCards.length / 100 →
        (pagesOf allCards i).length = 100) := by
  have hpos := posIntJS_of_isInteger_not_le_zero cid h1 h2
  obtain ⟨_, _, hlt1, _⟩ := posIntJS_checks cid hpos
  refine ⟨?_, ?_, ?_⟩
  · unfold getColumnCards
    rw [if_neg (by simp [h1]), if_neg (by simp [h2])]
    have hloop := getColumnCardsLoop_columnNet allCards cid h1 hlt1 fuel 1
      (by omega) (by simpa using hfuel)
    simpa using hloop
  · rw [pagesOf_length]
    omega
  · intro i hi1 hi2
    rw [pagesOf_length]
    omega

/-- C3: for every fetched deploy time, the orchestrator exits as the logged
no-op — with an empty request trace, so zero mutating calls — exactly when
`now − deployTime` is strictly greater than 86,400,000 ms; when the
difference does not exceed the threshold (including the NaN case, where the
comparison is false) the run never takes the no-op exit and proceeds into
the subsequent steps. -/
theorem deployGate_C3 (env : Env) (fuel : Nat) (t : JSNum)
    (hf : getDeployTime env.health env.dateOf = .ok t) :
    (jsGt (jsSub env.now t) (.num 86400000) = true →
      mainRun env fuel = some (.noRecentDeploy, []))
    ∧ (jsGt (jsSub env.now t) (.num 86400000) = false →
      ∀ tr, mainRun env fuel ≠ some (.noRecentDeploy, tr)) := by
  constructor
  · intro hg
    unfold mainRun
    rw [hf]
    dsimp only
    rw [if_pos hg]
  · intro hg tr
    unfold mainRun
    rw [hf]
    dsimp only
    rw [if_neg (by simp [hg])]
    intro h
    exact mainAfterGate_outcome env fuel _ tr h rfl

/-- C3 witness: with the deploy reported 100,000,000 ms ago the run is the
logged no-op with an empty trace; with the deploy reported 0 ms ago the run
never takes the no-op exit. -/
theorem deployGate_C3_witness :
    mainRun envStale 2 = some (.noRecentDeploy, [])
    ∧ (∀ tr, mainRun envC8 2 ≠ some (.noRecentDeploy, tr)) :=
  ⟨(deployGate_C3 envStale 2 (.num 0) (by rfl)).1 (by decide),
   (deployGate_C3 envC8 2 (.num 0) (by rfl)).2 (by decide)⟩

set_option maxRecDepth 4000 in
/-- C4 witness: a column with exactly 250 not-archived cards is fetched in
pages 1, 2, 3 and the concatenated result has length 250. -/
theorem getColumnCards_C4_witness :
    ((JSNum.num 7).isInteger = true ∧ jsLe (JSNum.num 7) (JSNum.num 0) = false
      ∧ (mkCards 250).length / 100 + 1 ≤ 3)
    ∧ (mkCards 250).length = 250
    ∧ (getColumnCards (JSNum.num 7) (columnNet (mkCards 250)) 3
        = some (.ok (mkCards 250),
            pageRequests (JSNum.num 7) 1 ((mkCards 250).length / 100 + 1))
      ∧ (pagesOf (mkCards 250) ((mkCards 250).length / 100 + 1)).length < 100
      ∧ (∀ i, 1 ≤ i → i ≤ (mkCards 250).length / 100 →
          (pagesOf (mkCards 250) i).length = 100)) :=
  ⟨⟨by decide, by decide, by decide⟩, by decide,
    getColumnCards_C4 (mkCards 250) (.num 7) 3 (by decide) (by decide) (by decide)⟩

/-- C8: `moveCards` issues one request per card in the order of the list it
receives, and the orchestrator passes it the fetched QA card list reversed —
so the per-card move requests are issued in the reverse of the fetch order.
Concretely, with the QA column fetched as the three cards with ids
10, 11, 12 (A, B, C) and the Done column having id 2, the full run issues
its move requests in the order 12, 11, 10 (C, B, A) against column 2. -/
theorem moveOrder_C8 :
    (∀ (qaCards : List Card) (cid : JSNum) (net : NetEnv),
      posIntJS cid = true →
      (∀ c ∈ qaCards, posIntJS c.id = true) →
      (moveCards qaCards.reverse cid net).requests
        = (qaCards.map (fun c => Request.move c.id cid)).reverse)
    ∧ mainRun envC8 2
      = some (.completed 3 1,
          [.cardPage (.num 3) (.num 1),
           .move (.num 12) (.num 2), .move (.num 11) (.num 2), .move (.num 10) (.num 2),
           .cardPage (.num 2) (.num 1), .archive (.num 21)]) := by
  constructor
  · intro qaCards cid net hcid hids
    rw [moveCards_requests qaCards.reverse cid net hcid
      (fun c hc => hids c (List.mem_reverse.mp hc))]
    exact List.map_reverse _ _
  · decide

/-- C8 witness: the general half of the theorem applied to the concrete QA
fetch order [10, 11, 12] against column 2. -/
theorem moveOrder_C8_witness :
    (moveCards ([⟨.num 10, false⟩, ⟨.num 11, false⟩, ⟨.num 12, false⟩] : List Card).reverse
        (.num 2) net200).requests
      = (([⟨.num 10, false⟩, ⟨.num 11, false⟩, ⟨.num 12, false⟩] : List Card).map
          (fun c => Request.move c.id (.num 2))).reverse :=
  moveOrder_C8.1 [⟨.num 10, false⟩, ⟨.num 11, false⟩, ⟨.num 12, false⟩] (.num 2) net200
    (by decide) (by decide)

/-- C9: when the health endpoint returns a present but unparseable
`latest_deploy_time`, `getDeployTime` returns an Invalid Date (time value
NaN) instead of throwing; the staleness comparison
`now − deployTime > 86400000` is false on NaN for every current time; and a
full concrete run with such a deploy time proceeds to the mutating steps
(it issues move and archive requests and completes). -/
theorem invalidDate_C9 (now : JSNum) (s : String) (dateOf : String → JSNum)
    (hs : s ≠ "") (hd : dateOf s = .nan) :
    getDeployTime (.response 200 (.parsed ⟨some s⟩)) dateOf = .ok .nan
    ∧ jsGt (jsSub now .nan) (.num 86400000) = false
    ∧ mainRun envC9 2
      = some (.completed 1 1,
          [.cardPage (.num 3) (.num 1), .move (.num 1) (.num 2),
           .cardPage (.num 2) (.num 1), .archive (.num 20)]) := by
  refine ⟨?_, ?_, ?_⟩
  · simp only [getDeployTime, getJSON, isSuccessStatus]
    rw [if_neg (by decide)]
    dsimp only
    rw [if_neg hs, hd]
  · cases now <;> rfl
  · decide

/-- C9 witness: the theorem at the current time 0 and the reported deploy
time string "not-a-date". -/
theorem invalidDate_C9_witness :
    getDeployTime (.response 200 (.parsed ⟨some "not-a-date"⟩)) (fun _ => JSNum.nan)
      = .ok .nan
    ∧ jsGt (jsSub (.num 0) .nan) (.num 86400000) = false
    ∧ mainRun envC9 2
      = some (.completed 1 1,
          [.cardPage (.num 3) (.num 1), .move (.num 1) (.num 2),
           .cardPage (.num 2) (.num 1), .archive (.num 20)]) :=
  invalidDate_C9 (.num 0) "not-a-date" (fun _ => .nan) (by decide) rfl

/-- C10: `parseInt` of a non-numeric limit string yields NaN without
throwing, so the parse step of the orchestrator succeeds and the bad limit is
detected only inside `archiveCards`, which rejects with the
"Param limit is not an integer" TypeError before dispatching any archival;
in the full concrete run the failure therefore happens only after the move
step has already issued all of its mutating requests. -/
theorem parseLimit_C10 (s : String) (cards : List Card) (net : NetEnv)
    (h : jsParseInt s = .nan) :
    (archiveCards cards (jsParseInt s) net).result
        = .rejected (.typeError "Param limit is not an integer")
    ∧ (archiveCards cards (jsParseInt s) net).requests = []
    ∧ (archiveCards cards (jsParseInt s) net).dispatched = []
    ∧ mainRun envC10 2
      = some (.errored (.typeError "Param limit is not an integer"),
          [.cardPage (.num 3) (.num 1), .move (.num 1) (.num 2),
           .cardPage (.num 2) (.num 1)]) := by
  refine ⟨?_, ?_, ?_, ?_⟩
  · rw [h]
    rfl
  · rw [h]
    rfl
  · rw [h]
    rfl
  · decide

/-- C10 witness: the theorem at the concrete non-numeric limit "abc". -/
theorem parseLimit_C10_witness :
    (archiveCards [⟨.num 20, false⟩] (jsParseInt "abc") net200).result
      = .rejected (.typeError "Param limit is not an integer")
    ∧ (archiveCards [⟨.num 20, false⟩] (jsParseInt "abc") net200).requests = []
    ∧ (archiveCards [⟨.num 20, false⟩] (jsParseInt "abc") net200).dispatched = []
    ∧ mainRun envC10 2
      = some (.errored (.typeError "Param limit is not an integer"),
          [.cardPage (.num 3) (.num 1), .move (.num 1) (.num 2),
           .cardPage (.num 2) (.num 1)]) :=
  parseLimit_C10 "abc" [⟨.num 20, false⟩] net200 (by decide)

/-- C7 witness: NaN as id and limit (and also NaN as the page number in a
second application) makes every operation fail with no request issued. -/
theorem validation_C7_witness :
    failedNoRequestB (getCardPage .nan (.num 1) net200) = true
    ∧ failedNoRequestB (moveCard .nan (.num 1) net200) = true
    ∧ colCardsFailedNoRequestB (getColumnCards .nan net200 1) = true
    ∧ failedNoRequestB (archiveCard .nan net200) = true
    ∧ rejectedNoRequestB (moveCards [] .nan net200) = true
    ∧ rejectedNoRequestB (archiveCards [] .nan net200) = true
    ∧ failedNoRequestB (getCardPage (.num 4) (.num 0) net200) = true := by
  obtain ⟨hA, hB, hC⟩ := validation_C7 .nan (.num 1) [] net200 1
  obtain ⟨hA2, _, _⟩ := validation_C7 (.num 4) (.num 0) [] net200 1
  have h1 := hA (Or.inl (by decide))
  have h2 := hB (by decide)
  exact ⟨h1.1, h1.2, h2.1, h2.2.1, h2.2.2, hC (by decide),
    (hA2 (Or.inr (by decide))).1⟩

end OnDeploy
